import Mathlib

/-!
Verification of the AegisShield threat-modeling pipeline.

This file shallowly embeds the data-handling core of the repository:
the STRIDE threat-model validator (`main-batch.py`), the DREAD markdown
renderer (`dread.py`), the MITRE ATT&CK keyword matcher and technique
selection (`mitre_attack.py`), the NVD vulnerability search with its
retry/backoff helper (`nvd_search.py`), and the AlienVault OTX pulse
search (`alientvault_search.py`).

Modelling conventions:
* Python dictionaries read with `d.get(k, default)` become structures with
  `Option`-typed fields read through `Option.getD`.
* External network calls (`nvdlib.searchCPE`, `nvdlib.searchCVE`,
  `otx.search_pulses`, the OpenAI chat call) are modelled as oracles:
  a function from the attempt number to the call's outcome, where an
  outcome either returns a value or raises a Python exception (`PyResult`).
* `handle_exception` in `error_handler.py` logs and displays the error but
  never raises; every call of it in the embedded code is therefore a no-op
  and control simply continues (falling off the end of a Python function
  returns `None`).
* Machine floats appear only as the DREAD risk score `sum / 5` with integer
  sub-scores and as the backoff delay `d * 2^k`; both are exact in binary
  floating point for the ranges involved, so they are modelled as `ℚ`.
* Python strings are modelled through their character lists; helpers
  (`pyStrLt`, `pyContains`, `pyReplace`, `pyStrip`, `lowerStr`) reimplement
  the Python operations `<`/`>=`, `in`, `str.replace`, `str.strip` and
  `str.lower` (ASCII case folding) structurally so they compute in the
  kernel.
-/

namespace AegisShield

/-- Python `a < b` on single characters, by code point. -/
def charLt (a b : Char) : Bool := a.val < b.val

/-- Python lexicographic `<` on strings, as character lists. -/
def charListLt : List Char → List Char → Bool
  | [], [] => false
  | [], _ :: _ => true
  | _ :: _, [] => false
  | a :: as, b :: bs => if a = b then charListLt as bs else charLt a b

/-- Python string comparison `a < b`. `a >= b` is `!(pyStrLt a b)`. -/
def pyStrLt (a b : String) : Bool := charListLt a.toList b.toList

/-- Python `s.lower()` (ASCII case folding, which is all the source compares). -/
def lowerStr (s : String) : String := String.mk (s.toList.map Char.toLower)

/-- Is the first list a prefix of the second? -/
def isPrefixCharsB : List Char → List Char → Bool
  | [], _ => true
  | _ :: _, [] => false
  | c :: cs, d :: ds => c = d && isPrefixCharsB cs ds

/-- Is the first list a contiguous sublist of the second? -/
def isInfixCharsB (needle : List Char) : List Char → Bool
  | [] => isPrefixCharsB needle []
  | c :: t => isPrefixCharsB needle (c :: t) || isInfixCharsB needle t

/-- Python `needle in hay` on strings. -/
def pyContains (hay needle : String) : Bool := isInfixCharsB needle.toList hay.toList

/-- Python `s.strip()`: drop leading and trailing whitespace. -/
def pyStrip (s : String) : String :=
  String.mk (((s.toList.dropWhile Char.isWhitespace).reverse.dropWhile
    Char.isWhitespace).reverse)

/-- One replacement pass of Python `str.replace`: scan left to right,
replacing each non-overlapping occurrence of `pat`.  Fuel is the length of
the text, which suffices since each step consumes at least one character
for non-empty `pat` (the only patterns occurring in the source). -/
def replaceAux (pat rep : List Char) : ℕ → List Char → List Char
  | 0, hay => hay
  | fuel + 1, hay =>
    if pat.length > 0 && isPrefixCharsB pat hay then
      rep ++ replaceAux pat rep fuel (hay.drop pat.length)
    else
      match hay with
      | [] => []
      | c :: t => c :: replaceAux pat rep fuel t

/-- Python `s.replace(pat, rep)`. -/
def pyReplace (s pat rep : String) : String :=
  String.mk (replaceAux pat.toList rep.toList s.toList.length s.toList)

/-- Python `s.split(sep)[0]` for a single-character separator. -/
def pySplitHead (sep : Char) (s : String) : String :=
  String.mk (s.toList.takeWhile (fun x => x ≠ sep))

/-- Insertion step of a stable sort with a boolean `le` relation. -/
def insertBy {α : Type} (le : α → α → Bool) (a : α) : List α → List α
  | [] => [a]
  | b :: bs => if le a b then a :: b :: bs else b :: insertBy le a bs

/-- Stable insertion sort; models Python `sorted` with a key and
`reverse=True` once `le` is instantiated with the reversed key order. -/
def sortBy {α : Type} (le : α → α → Bool) : List α → List α
  | [] => []
  | a :: as => insertBy le a (sortBy le as)

/-! ### Exceptions and call outcomes -/

/-- The Python exception classes the embedded code distinguishes.
`timeout` is `requests.exceptions.Timeout`, `httpError` is
`requests.exceptions.HTTPError` with its status code, `requestExn` is any
other `requests.exceptions.RequestException` (e.g. `ConnectionError`),
`otherExn` is any exception outside the `requests` hierarchy (e.g.
`TypeError`, `IndexError`), and `nvdApiError`/`alienVaultApiError`-style
application errors are modelled by `nvdApiError` with their message. -/
inductive PyExn where
  | timeout
  | httpError (status : ℕ)
  | requestExn
  | otherExn (msg : String)
  | nvdApiError (msg : String)
deriving Repr, DecidableEq

/-- Result of running a Python call: a returned value or a raised exception. -/
inductive PyResult (α : Type) where
  | ok (v : α)
  | raised (e : PyExn)
deriving Repr, DecidableEq

/-- Does `except (RequestException, Timeout)` catch this exception?
`Timeout` and `HTTPError` are subclasses of `RequestException`. -/
def isRequestsExn : PyExn → Bool
  | .timeout => true
  | .httpError _ => true
  | .requestExn => true
  | .otherExn _ => false
  | .nvdApiError _ => false

/-- Embeds `retry_with_backoff` (identical logic in `nvd_search.py` 25-51,
`alientvault_search.py` 18-43 and `threat_model.py` 23-49): run `f`; on a
`RequestException`/`Timeout` sleep `delay` and retry with doubled delay
while attempts remain; on the final attempt call `handle_exception`
(which does not raise) and return `None`; let any other exception
propagate.  `f` maps the attempt index to that attempt's outcome; the
returned list records the sleep durations in order. -/
def retryAux {α : Type} (f : ℕ → PyResult (Option α)) (i : ℕ) (delay : ℚ) :
    ℕ → List ℚ × PyResult (Option α)
  | 0 => ([], .ok none)
  | fuel + 1 =>
    match f i with
    | .ok v => ([], .ok v)
    | .raised e =>
      if isRequestsExn e then
        if fuel == 0 then ([], .ok none)
        else
          let r := retryAux f (i + 1) (delay * 2) fuel
          (delay :: r.1, r.2)
      else ([], .raised e)

/-- `retry_with_backoff(func, max_retries, initial_delay)`; see `retryAux`. -/
def retry_with_backoff {α : Type} (f : ℕ → PyResult (Option α)) (max_retries : ℕ)
    (initial_delay : ℚ) : List ℚ × PyResult (Option α) :=
  retryAux f 0 initial_delay max_retries

/-! ### STRIDE threat-model validation (`main-batch.py` 63-83) -/

/-- One entry of the generated threat model as the validator reads it:
only the `"Threat Type"` key is consulted (absent key defaults to `""`). -/
structure BatchThreat where
  threat_type : Option String
deriving Repr, DecidableEq

/-- The six STRIDE categories, in the order of the counter dictionary. -/
def strideCategories : List String :=
  ["Spoofing", "Tampering", "Repudiation", "Information Disclosure",
   "Denial of Service", "Elevation of Privilege"]

/-- `threat.get("Threat Type", "").strip()`. -/
def threatTypeOf (th : BatchThreat) : String := pyStrip (th.threat_type.getD "")

/-- Embeds `validate_threat_model`: count, for each STRIDE category, the
threats whose stripped `"Threat Type"` equals it (threats with any other
type are only printed, not counted), and accept iff every per-category
counter equals 3.  The per-category counter of the source's dictionary
loop equals the filtered length because the categories are distinct. -/
def validate_threat_model (threat_model : List BatchThreat) : Bool :=
  strideCategories.all
    (fun cat => (threat_model.filter (fun th => threatTypeOf th == cat)).length == 3)

/-! ### DREAD markdown rendering (`dread.py` 16-61) -/

/-- One entry of the `"Risk Assessment"` list, as the dictionary the
renderer reads: text fields default to `"N/A"`, sub-scores to `0`. -/
structure DreadThreat where
  threat_type : Option String
  scenario_text : Option String
  damage_potential : ℤ
  reproducibility : ℤ
  exploitability : ℤ
  affected_users : ℤ
  discoverability : ℤ
deriving Repr, DecidableEq

/-- The DREAD assessment dictionary; `riskAssessment` is the
`"Risk Assessment"` key, absent defaulting to `[]`. -/
structure DreadAssessment where
  riskAssessment : Option (List DreadThreat)
deriving Repr, DecidableEq

/-- The fixed table header emitted by `dread_json_to_markdown`. -/
def dreadHeader : String :=
  "| Threat Type | Scenario | Damage Potential | Reproducibility | Exploitability | Affected Users | Discoverability | Risk Score |\n|-------------|----------|------------------|-----------------|----------------|----------------|-----------------|-------------|\n"

/-- Two digits for the fractional part of `{x:.2f}`. -/
def pad2 (n : ℤ) : String := (if n < 10 then "0" else "") ++ toString n

/-- Python `f"{q:.2f}"` for the nonnegative exact values arising here
(`q * 100` an integer, so float rounding is exact and round-half-even
agrees with adding 1/2 and flooring). -/
def pyFormatF2 (q : ℚ) : String :=
  toString (⌊q * 100 + 1 / 2⌋ / 100) ++ "." ++ pad2 (⌊q * 100 + 1 / 2⌋ % 100)

/-- One markdown row of the DREAD table (`dread.py` 37-52): the risk score
is `(damage + reproducibility + exploitability + affected + discoverability) / 5`
(Python true division) rendered with `:.2f`. -/
def dreadRow (t : DreadThreat) : String :=
  "| " ++ t.threat_type.getD "N/A" ++ " | " ++ t.scenario_text.getD "N/A" ++ " | "
    ++ toString t.damage_potential ++ " | " ++ toString t.reproducibility ++ " | "
    ++ toString t.exploitability ++ " | " ++ toString t.affected_users ++ " | "
    ++ toString t.discoverability ++ " | "
    ++ pyFormatF2 (((t.damage_potential + t.reproducibility + t.exploitability
        + t.affected_users + t.discoverability : ℤ) : ℚ) / 5)
    ++ " |\n"

/-- Embeds `dread_json_to_markdown` on assessments whose entries are all
dictionaries (a non-dictionary entry raises `TypeError`; the claim under
study restricts to dictionary entries, so the typed model omits it). -/
def dread_json_to_markdown (a : DreadAssessment) : String :=
  dreadHeader ++ String.join ((a.riskAssessment.getD []).map dreadRow)

/-- Modelled from the spec: the risk score `(d+r+e+a+disc)/5` "formatted to
two decimal places" — for sub-score sum `s`, the mean in hundredths is the
integer `20*s`, rendered as the integer part followed by exactly two
decimal digit characters. -/
def meanTwoDecimals (s : ℤ) : String :=
  toString (20 * s / 100) ++ "." ++ toString (20 * s / 10 % 10) ++ toString (20 * s % 10)

/-! ### Technique selection (`mitre_attack.py` 313-365) -/

/-- The "no relevant match" sentinel identifier of the prompt contract. -/
def sentinelNoMatch : String := "attack-pattern--00000000-0000-0000-0000-000000000000"

/-- Outcome of stripping the code fence from the LLM response and running
`json.loads` on it: the JSON failed to parse, parsed to a non-list value,
or parsed to a list (of identifier strings). -/
inductive ParsedJson where
  | parseError
  | nonList
  | strList (xs : List String)
deriving Repr, DecidableEq

/-- Embeds the dispatch of `get_relevant_techniques` after parsing
(`mitre_attack.py` 346-365): `json.JSONDecodeError` sets `top_1_id = []`
before the common `isinstance`/length dispatch runs. -/
def get_relevant_techniques (parsed : ParsedJson) : List String :=
  let top_1_id : Option (List String) :=
    match parsed with
    | .parseError => some []
    | .strList xs => some xs
    | .nonList => none
  match top_1_id with
  | some xs =>
    if xs.length == 1 then xs
    else if xs.length == 0 then [sentinelNoMatch]
    else []
  | none => []

/-! ### Keyword matching over the ATT&CK catalog (`mitre_attack.py` 179-254) -/

/-- A STIX object as the matcher reads it: `type`, `name` and `id` are
accessed directly, `description` through `get` with a default. -/
structure StixObject where
  type : String
  name : String
  description : Option String
  id : String
deriving Repr, DecidableEq

/-- A matched technique record appended by the keyword scan
(`mitre_attack.py` 204-210). -/
structure Technique where
  name : String
  description : String
  id : String
deriving Repr, DecidableEq

/-- The technique record built from the LLM's top-1 selection
(`mitre_attack.py` 231-238). -/
structure TopTechnique where
  name : String
  description : String
  id : String
  technique_id : String
deriving Repr, DecidableEq

/-- A threat as the matcher reads it: only `"MITRE ATT&CK Keywords"`
(absent defaulting to `[]`) is consulted. -/
structure MitreThreat where
  keywords : Option (List String)
deriving Repr, DecidableEq

/-- One element of `processed_data`: the threat together with its
`mitre_techniques` list. -/
structure ProcessedEntry where
  threat : MitreThreat
  mitre_techniques : List TopTechnique
deriving Repr, DecidableEq

/-- `MAX_TECHNIQUES` (`mitre_attack.py` 48). -/
def MAX_TECHNIQUES : ℕ := 25

/-- Does any keyword occur (case-insensitively) in the object's name or
description?  `List.any` stops at the first matching keyword, like the
source's inner `for`/`break`. -/
def keywordMatches (keywords : List String) (o : StixObject) : Bool :=
  keywords.any (fun kw =>
    pyContains (lowerStr o.name) (lowerStr kw)
      || pyContains (lowerStr (o.description.getD "")) (lowerStr kw))

/-- The record appended for a matched attack pattern. -/
def toTechnique (o : StixObject) : Technique :=
  ⟨o.name, o.description.getD "No description available", o.id⟩

/-- The catalog scan of `mitre_attack.py` 196-211: walk the STIX objects in
order, appending a record for each attack pattern some keyword matches. -/
def collectRelevant (keywords : List String) : List StixObject → List Technique
  | [] => []
  | o :: rest =>
    if o.type == "attack-pattern" && keywordMatches keywords o then
      toTechnique o :: collectRelevant keywords rest
    else
      collectRelevant keywords rest

/-- `relevant_techniques` after the cap `relevant_techniques[:MAX_TECHNIQUES]`
(`mitre_attack.py` 214). -/
def relevant_techniques_for (objs : List StixObject) (keywords : List String) :
    List Technique :=
  (collectRelevant keywords objs).take MAX_TECHNIQUES

/-- Python `d.get(k, default)` on an association list. -/
def dictGet (m : List (String × String)) (k d : String) : String :=
  ((m.find? (fun kv => kv.1 == k)).map Prod.snd).getD d

/-- Embeds `mitre_attack.py` 224-254: build the `mitre_techniques` list
from the selection returned by `get_relevant_techniques`.  An empty
selection makes `top_1_id[0]` raise `IndexError`, which the enclosing
`except` turns into an empty `mitre_techniques` list. -/
def techniques_for_selection (attackMap : List (String × String))
    (relevant : List Technique) (sel : List String) : List TopTechnique :=
  match sel with
  | [] => []
  | id0 :: _ =>
    [{ name := ((relevant.find? (fun t => t.id == id0)).map Technique.name).getD "Unknown",
       description := ((relevant.find? (fun t => t.id == id0)).map
         Technique.description).getD "No description available",
       id := id0,
       technique_id := dictGet attackMap id0 "N/A" }]

/-- Embeds the per-threat body of `process_mitre_attack_data`
(`mitre_attack.py` 179-254).  `sel` is the list returned by the
technique-selection call for this threat (the LLM call and its JSON
handling are the oracle; a selection failure manifests as `sel = []`). -/
def process_threat_mitre (objs : List StixObject) (attackMap : List (String × String))
    (th : MitreThreat) (sel : List String) : ProcessedEntry :=
  match th.keywords.getD [] with
  | [] => ⟨th, []⟩
  | k :: ks =>
    ⟨th, techniques_for_selection attackMap (relevant_techniques_for objs (k :: ks)) sel⟩

/-! ### NVD search (`nvd_search.py`) -/

/-- A superseding-identifier record in `cpe.deprecatedBy`. -/
structure CpeRef where
  cpeName : String
deriving Repr, DecidableEq

/-- A CPE search result as `_fetch_cpe` reads it. -/
structure CpeEntry where
  cpeName : String
  deprecated : Bool
  deprecatedBy : List CpeRef
deriving Repr, DecidableEq

/-- A CVE record as `search_nvd` reads it: identifier, description values,
published timestamp and CVSS score. -/
structure Cve where
  id : String
  descriptions : List String
  published : String
  score : ℚ
deriving Repr, DecidableEq

/-- Embeds `_fetch_cpe` (`nvd_search.py` 71-96) as a function of the
`nvdlib.searchCPE` outcome.  Every failure branch calls `handle_exception`
(which does not raise) and the function returns `None`; on an empty result
list the subsequent `cpe_results[0]` raises `IndexError`, caught by the
inner `except Exception`, again yielding `None`. -/
def fetchCpeInner (res : PyResult (List CpeEntry)) : Option String :=
  match res with
  | .ok [] => none
  | .ok (c :: _) =>
    match c.deprecated, c.deprecatedBy with
    | true, d :: _ => some d.cpeName
    | _, _ => some c.cpeName
  | .raised _ => none

/-- Embeds `fetch_cpe_name` (`nvd_search.py` 53-98): `_fetch_cpe` under
`retry_with_backoff` with the default `NVDConfig` (3 attempts, delay 1).
`outs` maps each attempt to that attempt's `nvdlib.searchCPE` outcome. -/
def fetch_cpe_name (outs : ℕ → PyResult (List CpeEntry)) : PyResult (Option String) :=
  (retry_with_backoff (fun i => .ok (fetchCpeInner (outs i))) 3 1).2

/-- Python `str(x)` where `x` may be `None`. -/
def pyStrOfOpt : Option String → String
  | none => "None"
  | some s => s

/-- `le` relation modelling `sorted(key=lambda x: (x.score, x.published),
reverse=True)`: descending lexicographic on (score, published). -/
def cveKeyGe (a b : Cve) : Bool :=
  decide (b.score < a.score)
    || (decide (a.score = b.score) && !pyStrLt a.published b.published)

/-- Embeds `_search_cves` (`nvd_search.py` 136-167) as a function of the
`nvdlib.searchCVE` outcome: empty results return `[]`, non-empty results
are sorted by (score, published) descending and truncated to `top_n`, and
every exception is re-raised as `NVDAPIError` (which `retry_with_backoff`
does not treat as transient). -/
def search_cves (cpeNm : Option String) (out : PyResult (List Cve)) (top_n : ℕ) :
    PyResult (Option (List Cve)) :=
  match out with
  | .ok [] => .ok (some [])
  | .ok (c :: rest) => .ok (some ((sortBy cveKeyGe (c :: rest)).take top_n))
  | .raised .timeout =>
    .raised (.nvdApiError ("Timeout while searching CVEs for " ++ pyStrOfOpt cpeNm))
  | .raised (.httpError code) =>
    .raised (.nvdApiError (if code == 429 then
      "Rate limit exceeded. Please wait before making more requests."
      else "HTTP error while searching CVEs"))
  | .raised _ => .raised (.nvdApiError "Unexpected error while searching CVEs")

/-- One formatted CVE block (`nvd_search.py` 177-197).  The source's
`description.replace('\\n', ' ')` replaces the two-character sequence
backslash-n, not newlines; `published.split("T")[0]` is `pySplitHead`.
The CVSS score rendering abstracts Python float `repr` as `toString`. -/
def cveEntryStr (tech category version : String) (idx : ℕ) (c : Cve) : String :=
  let description := match c.descriptions with
    | [] => "No description available"
    | d :: _ => d
  let published_date := if c.published == "" then "Unknown date"
    else pySplitHead 'T' c.published
  tech ++ " NVD " ++ toString (idx + 1)
    ++ "\nCVE ID: " ++ c.id
    ++ "\nTechnology: " ++ tech
    ++ "\nCategory: " ++ category
    ++ "\nVersion: " ++ version
    ++ "\nCVSS Score: " ++ toString c.score
    ++ "\nPublished Date: " ++ published_date
    ++ "\nDescription: " ++ pyReplace (pyReplace description "\\n" " ") "/" "-" ++ "|"

/-- Embeds `search_nvd` (`nvd_search.py` 100-205).  `cpeOuts`/`cveOuts`
map each attempt to the outcome of `nvdlib.searchCPE`/`nvdlib.searchCVE`.
The `except NVDAPIError` around `fetch_cpe_name` and the possibility of
`retry_with_backoff` handing back `None` (over which the `enumerate` would
raise `TypeError`) are embedded even where later theorems show them
unreachable. -/
def search_nvd (cpeOuts : ℕ → PyResult (List CpeEntry))
    (cveOuts : ℕ → PyResult (List Cve))
    (tech category version : String) (top_n : ℕ) : PyResult String :=
  match fetch_cpe_name cpeOuts with
  | .raised (.nvdApiError m) => .ok ("Error: " ++ m)
  | .raised e => .raised e
  | .ok cpeNm =>
    match (retry_with_backoff (fun i => search_cves cpeNm (cveOuts i) top_n) 3 1).2 with
    | .raised (.nvdApiError m) => .ok ("Error: " ++ m)
    | .raised e => .raised e
    | .ok none => .raised (.otherExn "TypeError: NoneType object is not iterable")
    | .ok (some tops) =>
      let vulnerabilities := tops.enum.map (fun p => cveEntryStr tech category version p.1 p.2)
      .ok (if vulnerabilities.isEmpty then "No vulnerabilities found"
        else String.join vulnerabilities
          ++ "\n\nTotal vulnerabilities found: " ++ toString vulnerabilities.length)

/-! ### AlienVault OTX search (`alientvault_search.py`) -/

/-- A pulse as the filter and formatter read it, all fields through
`get` with defaults (`publicFlag` is the `"public"` key, default `1`;
`tlp` is the `"TLP"` key). -/
structure Pulse where
  name : Option String
  description : Option String
  modified : Option String
  publicFlag : Option ℤ
  adversary : Option String
  malware_families : Option (List String)
  tlp : Option String
deriving Repr, DecidableEq

/-- The `otx.search_pulses` response: its `"results"` list (and count). -/
structure OtxResp where
  results : List Pulse
  count : ℕ
deriving Repr, DecidableEq

/-- The filter predicate of the pulse comprehension
(`alientvault_search.py` 114-130): modified on or after the lookback
cutoff, public, adversary substring match (case-insensitive) if given,
malware-family exact match (case-insensitive) if given, TLP exact match
(case-insensitive) if given. -/
def pulsePred (modified_since : String)
    (adversary malware_family tlp : Option String) (p : Pulse) : Bool :=
  !pyStrLt (p.modified.getD "") modified_since
    && (p.publicFlag.getD 1 == 1)
    && (match adversary with
        | none => true
        | some a => pyContains (lowerStr (p.adversary.getD "")) (lowerStr a))
    && (match malware_family with
        | none => true
        | some m => (p.malware_families.getD []).any (fun mf => lowerStr mf == lowerStr m))
    && (match tlp with
        | none => true
        | some t => lowerStr (p.tlp.getD "") == lowerStr t)

/-- `filtered_pulses` (`alientvault_search.py` 114-130). -/
def filter_pulses (modified_since : String)
    (adversary malware_family tlp : Option String) (ps : List Pulse) : List Pulse :=
  ps.filter (pulsePred modified_since adversary malware_family tlp)

/-- `sorted_pulses` (`alientvault_search.py` 135-137): filtered pulses
sorted by modified date descending, truncated to `max_results`. -/
def otx_sorted_pulses (modified_since : String)
    (adversary malware_family tlp : Option String) (ps : List Pulse)
    (max_results : ℕ) : List Pulse :=
  (sortBy (fun a b => !pyStrLt (a.modified.getD "") (b.modified.getD ""))
    (filter_pulses modified_since adversary malware_family tlp ps)).take max_results

/-- One formatted pulse block (`alientvault_search.py` 142-151). -/
def formatPulse (industry : Option String) (idx : ℕ) (p : Pulse) : String :=
  let industryStr := match industry with
    | some i => if i == "" then "N/A" else i
    | none => "N/A"
  let descRaw := p.description.getD "N/A"
  let desc := if descRaw == "" then "No description available" else descRaw
  "Cyber Threat Intelligence Pulse " ++ toString (idx + 1)
    ++ "\nIndustry: " ++ industryStr
    ++ "\nPulse Name: " ++ p.name.getD "N/A"
    ++ "\nDescription: " ++ desc
    ++ "\nModified: " ++ p.modified.getD "N/A"
    ++ "\nTLP: " ++ p.tlp.getD "N/A"
    ++ "\nAdversary: " ++ p.adversary.getD "N/A"
    ++ "\nMalware Families: " ++ String.intercalate ", " (p.malware_families.getD [])
    ++ "\n|\n"

/-- `cti_data` (`alientvault_search.py` 140-155): one block per sorted,
truncated pulse (the pure model has no per-pulse formatting failures). -/
def otx_formatted_blocks (industry : Option String) (modified_since : String)
    (adversary malware_family tlp : Option String) (ps : List Pulse)
    (max_results : ℕ) : List String :=
  (otx_sorted_pulses modified_since adversary malware_family tlp ps
    max_results).enum.map (fun p => formatPulse industry p.1 p.2)

/-- Embeds `_search_pulses` (`alientvault_search.py` 87-105) as a function
of the `otx.search_pulses` outcome: a falsy response (`.ok none`) and every
exception branch call `handle_exception` and return `None`. -/
def search_pulses_inner (out : PyResult (Option OtxResp)) : Option OtxResp :=
  match out with
  | .ok (some r) => some r
  | .ok none => none
  | .raised _ => none

/-- Embeds `fetch_otx_data` (`alientvault_search.py` 45-165): search with
retry; if the retry helper hands back `None`, return `None` (line 109-110);
otherwise filter, sort, truncate and format, returning the "no data"
sentinel when nothing survives.  `modified_since` abstracts
`(now - timedelta(days)).isoformat()`.  The outer `except` clauses call
`handle_exception` and fall off the end, i.e. also return `None`. -/
def fetch_otx_data (outs : ℕ → PyResult (Option OtxResp)) (industry : Option String)
    (modified_since : String) (max_results : ℕ)
    (adversary malware_family tlp : Option String) : Option String :=
  match (retry_with_backoff (fun i => .ok (search_pulses_inner (outs i))) 3 1).2 with
  | .ok none => none
  | .raised _ => none
  | .ok (some r) =>
    let blocks := otx_formatted_blocks industry modified_since adversary
      malware_family tlp r.results max_results
    some (if blocks.isEmpty then "No threat intelligence data found"
      else String.join blocks ++ "\n\nTotal pulses found: " ++ toString blocks.length)

/-- The caller pattern of `tabs/step3_threat_model.py` 153-154 and
`main-batch.py` 279-280: `fetch_otx_data(...).replace('|', '\n\n')`, which
raises `AttributeError` when the result is `None`. -/
def otx_caller_step (r : Option String) : PyResult String :=
  match r with
  | none => .raised (.otherExn "AttributeError: NoneType object has no attribute replace")
  | some s => .ok (pyReplace s "|" "\n\n")

/-- A 19-entry threat model: three threats for each STRIDE category plus
one threat of the unexpected type `"Other"`. -/
def cexThreatModel : List BatchThreat :=
  ((strideCategories.map (fun c => List.replicate 3 (⟨some c⟩ : BatchThreat))).flatten)
    ++ [⟨some "Other"⟩]

/-! ### Helper lemmas -/

theorem length_insertBy {α : Type} (le : α → α → Bool) (a : α) (l : List α) :
    (insertBy le a l).length = l.length + 1 := by
  induction l with
  | nil => rfl
  | cons b bs ih =>
    simp only [insertBy]
    split <;> simp [ih]

theorem length_sortBy {α : Type} (le : α → α → Bool) (l : List α) :
    (sortBy le l).length = l.length := by
  induction l with
  | nil => rfl
  | cons a as ih => simp [sortBy, length_insertBy, ih]

/-- The sleep trace of `retryAux` is an initial segment of the geometric
sequence `delay, 2*delay, 4*delay, ...`. -/
theorem retryAux_trace {α : Type} (f : ℕ → PyResult (Option α)) :
    ∀ (fuel i : ℕ) (δ : ℚ), ∃ n,
      (retryAux f i δ fuel).1 = (List.range n).map (fun k => δ * 2 ^ k) := by
  intro fuel
  induction fuel with
  | zero => exact fun i δ => ⟨0, rfl⟩
  | succ fu ih =>
    intro i δ
    cases hf : f i with
    | ok v => exact ⟨0, by simp [retryAux, hf]⟩
    | raised e =>
      by_cases he : isRequestsExn e
      · cases fu with
        | zero => exact ⟨0, by simp [retryAux, hf, he]⟩
        | succ fu' =>
          obtain ⟨n, hn⟩ := ih (i + 1) (δ * 2)
          refine ⟨n + 1, ?_⟩
          have hstep : (retryAux f i δ (fu' + 1 + 1)).1
              = δ :: (retryAux f (i + 1) (δ * 2) (fu' + 1)).1 := by
            simp [retryAux, hf, he]
          rw [hstep, hn, List.range_succ_eq_map, List.map_cons, List.map_map]
          have hfun : ((fun k : ℕ => δ * 2 ^ k) ∘ Nat.succ)
              = fun k : ℕ => δ * 2 * 2 ^ k := by
            funext k
            simp [Function.comp, pow_succ]
            ring
          simp [hfun]
      · exact ⟨0, by simp [retryAux, hf, he]⟩

/-- When every attempt raises a transient exception, `retryAux` hands back
`None` without raising, having slept before each retry (all attempts but
the first). -/
theorem retryAux_exhaust {α : Type} (f : ℕ → PyResult (Option α)) (g : ℕ → PyExn) :
    ∀ (fuel i : ℕ) (δ : ℚ),
      (∀ j, j < fuel → f (i + j) = .raised (g (i + j)) ∧ isRequestsExn (g (i + j)) = true) →
      (retryAux f i δ fuel).2 = .ok none ∧ (retryAux f i δ fuel).1.length = fuel - 1 := by
  intro fuel
  induction fuel with
  | zero => exact fun i δ _ => ⟨rfl, rfl⟩
  | succ fu ih =>
    intro i δ h
    have h0 := h 0 (Nat.succ_pos fu)
    rw [Nat.add_zero] at h0
    cases fu with
    | zero => simp [retryAux, h0.1, h0.2]
    | succ fu' =>
      have hshift : ∀ j, j < fu' + 1 →
          f (i + 1 + j) = .raised (g (i + 1 + j)) ∧ isRequestsExn (g (i + 1 + j)) = true := by
        intro j hj
        have := h (j + 1) (by omega)
        rwa [show i + (j + 1) = i + 1 + j by omega] at this
      have hrec := ih (i + 1) (δ * 2) hshift
      constructor
      · simpa [retryAux, h0.1, h0.2] using hrec.1
      · have : (retryAux f i δ (fu' + 1 + 1)).1
            = δ :: (retryAux f (i + 1) (δ * 2) (fu' + 1)).1 := by
          simp [retryAux, h0.1, h0.2]
        rw [this]
        simp [hrec.2]

/-- Claim C5: for `retry_with_backoff` with `max_retries = m` and
`initial_delay = d`, (1) the sleep performed before retry `k` (1-indexed)
is exactly `d * 2^(k-1)` — the trace is the geometric sequence; (2) a
non-transient exception is not retried: raised on the first attempt it
propagates immediately with no sleeps; (3) when every one of the `m`
attempts fails transiently, the helper returns `None` (surfacing a
terminal error through `handle_exception`) instead of raising, after
sleeping before each of the `m - 1` retries. -/
theorem claim_c5_retry_backoff (α : Type) (f f' : ℕ → PyResult (Option α))
    (m : ℕ) (d : ℚ) (e : PyExn) (g : ℕ → PyExn) :
    ((retry_with_backoff f m d).1
      = (List.range (retry_with_backoff f m d).1.length).map (fun k => d * 2 ^ k))
    ∧ (f' 0 = .raised e → isRequestsExn e = false → 1 ≤ m →
        retry_with_backoff f' m d = ([], .raised e))
    ∧ ((∀ i, i < m → f i = .raised (g i)) → (∀ i, i < m → isRequestsExn (g i) = true) →
        (retry_with_backoff f m d).2 = .ok none
          ∧ (retry_with_backoff f m d).1.length = m - 1) := by
  refine ⟨?_, ?_, ?_⟩
  · obtain ⟨n, hn⟩ := retryAux_trace f m 0 d
    rw [retry_with_backoff, hn]
    simp
  · intro hf he hm
    obtain ⟨k, rfl⟩ := Nat.exists_eq_add_of_le hm
    rw [Nat.add_comm]
    simp [retry_with_backoff, retryAux, hf, he]
  · intro hf he
    exact retryAux_exhaust f g m 0 d (fun j hj => by
      simpa using ⟨hf j hj, he j hj⟩)

/-- Witness for C5 at concrete inputs: a non-transient `NVDAPIError`
propagates unretried, and three persistent timeouts yield `None` with two
sleeps. -/
theorem claim_c5_retry_backoff_witness :
    retry_with_backoff (fun _ => .raised (.nvdApiError "boom") : ℕ → PyResult (Option ℕ)) 3 1
      = ([], .raised (.nvdApiError "boom"))
    ∧ (retry_with_backoff (fun _ => .raised .timeout : ℕ → PyResult (Option ℕ)) 3 1).2
      = .ok none
    ∧ (retry_with_backoff (fun _ => .raised .timeout : ℕ → PyResult (Option ℕ)) 3 1).1.length
      = 3 - 1 :=
  ⟨(claim_c5_retry_backoff ℕ (fun _ => .raised .timeout) (fun _ => .raised (.nvdApiError "boom"))
      3 1 (.nvdApiError "boom") (fun _ => .timeout)).2.1 rfl rfl (by decide),
   ((claim_c5_retry_backoff ℕ (fun _ => .raised .timeout) (fun _ => .raised (.nvdApiError "boom"))
      3 1 (.nvdApiError "boom") (fun _ => .timeout)).2.2 (fun _ _ => rfl) (fun _ _ => rfl)).1,
   ((claim_c5_retry_backoff ℕ (fun _ => .raised .timeout) (fun _ => .raised (.nvdApiError "boom"))
      3 1 (.nvdApiError "boom") (fun _ => .timeout)).2.2 (fun _ _ => rfl) (fun _ _ => rfl)).2⟩

/-- Claim C7: the pulse filter is idempotent — applying the filter to its
own output returns the same list as applying it once, for every pulse list
and every fixed filter-parameter set. -/
theorem claim_c7_filter_idempotent (modified_since : String)
    (adversary malware_family tlp : Option String) (ps : List Pulse) :
    filter_pulses modified_since adversary malware_family tlp
        (filter_pulses modified_since adversary malware_family tlp ps)
      = filter_pulses modified_since adversary malware_family tlp ps := by
  simp [filter_pulses, List.filter_filter]

/-- Claim C6: the CVE search returns at most `top_n` records and the pulse
search formats at most `max_results` blocks, for every raw feed result
list (including lists shorter than the request). -/
theorem claim_c6_bounded_output (cpeNm : Option String) (l : List Cve) (top_n : ℕ)
    (industry : Option String) (modified_since : String)
    (adversary malware_family tlp : Option String) (ps : List Pulse) (max_results : ℕ) :
    (∃ r, search_cves cpeNm (.ok l) top_n = .ok (some r) ∧ r.length ≤ top_n)
    ∧ (otx_formatted_blocks industry modified_since adversary malware_family tlp
        ps max_results).length ≤ max_results := by
  constructor
  · cases l with
    | nil => exact ⟨[], rfl, by simp⟩
    | cons c rest =>
      refine ⟨_, rfl, ?_⟩
      simp [List.length_take]
  · simp [otx_formatted_blocks, otx_sorted_pulses, List.length_take]

/-- Claim C1 (failing-input evaluation): `validate_threat_model` accepts a
19-entry list — it counts only threats whose type is a STRIDE category, so
the extra `"Other"` entry is printed but not rejected, contradicting the
function's own docstring ("contains exactly 18 threats") and the claim's
"exactly 18 entries in total". -/
theorem claim_c1_code_eval :
    validate_threat_model cexThreatModel = true ∧ cexThreatModel.length = 19 := by
  constructor <;> decide

/-- Counterexample for C3 as stated: on unparseable JSON the code sets
`top_1_id = []` and then takes the empty-list branch, returning the
one-element sentinel list — not the empty list the claim asserts. -/
theorem claim_c3_cex :
    get_relevant_techniques .parseError = [sentinelNoMatch]
      ∧ get_relevant_techniques .parseError ≠ ([] : List String) := by
  constructor <;> decide

/-- Claim C3 as amended: a parsed one-element list is returned as is; an
empty parsed list and unparseable JSON both yield the sentinel list; a
list of length ≥ 2 and a non-list value yield the empty list, a hard
failure whose caller ends up with an empty `mitre_techniques` list. -/
theorem claim_c3_technique_selection (xs ys : List String)
    (attackMap : List (String × String)) (relevant : List Technique) :
    (xs.length = 1 → get_relevant_techniques (.strList xs) = xs)
    ∧ get_relevant_techniques (.strList []) = [sentinelNoMatch]
    ∧ get_relevant_techniques .parseError = [sentinelNoMatch]
    ∧ (2 ≤ ys.length → get_relevant_techniques (.strList ys) = [])
    ∧ get_relevant_techniques .nonList = []
    ∧ techniques_for_selection attackMap relevant [] = [] := by
  refine ⟨?_, rfl, rfl, ?_, rfl, rfl⟩
  · intro h
    simp [get_relevant_techniques, h]
  · intro h
    have h1 : (ys.length == 1) = false := by
      rw [beq_eq_false_iff_ne]
      omega
    have h0 : (ys.length == 0) = false := by
      rw [beq_eq_false_iff_ne]
      omega
    simp [get_relevant_techniques, h1, h0]

/-- Witness for C3 (amended) at concrete inputs. -/
theorem claim_c3_technique_selection_witness :
    get_relevant_techniques (.strList ["attack-pattern--a1"]) = ["attack-pattern--a1"]
    ∧ get_relevant_techniques (.strList ["attack-pattern--a1", "attack-pattern--b2"]) = [] :=
  ⟨(claim_c3_technique_selection ["attack-pattern--a1"]
      ["attack-pattern--a1", "attack-pattern--b2"] [] []).1 rfl,
   (claim_c3_technique_selection ["attack-pattern--a1"]
      ["attack-pattern--a1", "attack-pattern--b2"] [] []).2.2.2.1 (by decide)⟩

/-- On the success path `fetch_cpe_name` returns the value `_fetch_cpe`
computed from the first attempt's search outcome (no exception can escape
`_fetch_cpe`, so the retry loop returns on attempt one). -/
theorem fetch_cpe_name_first (outs : ℕ → PyResult (List CpeEntry)) :
    fetch_cpe_name outs = .ok (fetchCpeInner (outs 0)) := rfl

/-- Claim C8: when the first CPE result is deprecated with a non-empty
superseding list, `fetch_cpe_name` returns the first superseding entry's
CPE name; when it is not deprecated, or has no superseding entry, it
returns the result's own name. -/
theorem claim_c8_deprecation (o₁ o₂ o₃ : ℕ → PyResult (List CpeEntry))
    (c₁ c₂ c₃ : CpeEntry) (rest : List CpeEntry) (dRef : CpeRef) (ds : List CpeRef) :
    (o₁ 0 = .ok (c₁ :: rest) → c₁.deprecated = true → c₁.deprecatedBy = dRef :: ds →
      fetch_cpe_name o₁ = .ok (some dRef.cpeName))
    ∧ (o₂ 0 = .ok (c₂ :: rest) → c₂.deprecated = false →
      fetch_cpe_name o₂ = .ok (some c₂.cpeName))
    ∧ (o₃ 0 = .ok (c₃ :: rest) → c₃.deprecatedBy = [] →
      fetch_cpe_name o₃ = .ok (some c₃.cpeName)) := by
  refine ⟨?_, ?_, ?_⟩
  · intro h hdep hby
    rw [fetch_cpe_name_first, h]
    simp [fetchCpeInner, hdep, hby]
  · intro h hdep
    rw [fetch_cpe_name_first, h]
    simp [fetchCpeInner, hdep]
  · intro h hby
    rw [fetch_cpe_name_first, h]
    cases hdep : c₃.deprecated <;> simp [fetchCpeInner, hdep, hby]

/-- Witness for C8 at concrete CPE entries. -/
theorem claim_c8_deprecation_witness :
    fetch_cpe_name (fun _ => .ok [⟨"cpe:2.3:a:old:8.0", true, [⟨"cpe:2.3:a:new:8.0"⟩]⟩])
      = .ok (some "cpe:2.3:a:new:8.0")
    ∧ fetch_cpe_name (fun _ => .ok [⟨"cpe:2.3:a:live:8.0", false, []⟩])
      = .ok (some "cpe:2.3:a:live:8.0") :=
  ⟨(claim_c8_deprecation
      (fun _ => .ok [⟨"cpe:2.3:a:old:8.0", true, [⟨"cpe:2.3:a:new:8.0"⟩]⟩])
      (fun _ => .ok [⟨"cpe:2.3:a:live:8.0", false, []⟩])
      (fun _ => .ok [⟨"cpe:2.3:a:live:8.0", false, []⟩])
      ⟨"cpe:2.3:a:old:8.0", true, [⟨"cpe:2.3:a:new:8.0"⟩]⟩
      ⟨"cpe:2.3:a:live:8.0", false, []⟩
      ⟨"cpe:2.3:a:live:8.0", false, []⟩
      [] ⟨"cpe:2.3:a:new:8.0"⟩ []).1 rfl rfl rfl,
   (claim_c8_deprecation
      (fun _ => .ok [⟨"cpe:2.3:a:old:8.0", true, [⟨"cpe:2.3:a:new:8.0"⟩]⟩])
      (fun _ => .ok [⟨"cpe:2.3:a:live:8.0", false, []⟩])
      (fun _ => .ok [⟨"cpe:2.3:a:live:8.0", false, []⟩])
      ⟨"cpe:2.3:a:old:8.0", true, [⟨"cpe:2.3:a:new:8.0"⟩]⟩
      ⟨"cpe:2.3:a:live:8.0", false, []⟩
      ⟨"cpe:2.3:a:live:8.0", false, []⟩
      [] ⟨"cpe:2.3:a:new:8.0"⟩ []).2.1 rfl rfl⟩

/-- The appending scan equals filtering the catalog (preserving its order)
and mapping to technique records. -/
theorem collectRelevant_eq_filter (kws : List String) (objs : List StixObject) :
    collectRelevant kws objs
      = (objs.filter (fun o => o.type == "attack-pattern" && keywordMatches kws o)).map
          toTechnique := by
  induction objs with
  | nil => rfl
  | cons o rest ih =>
    by_cases h : (o.type == "attack-pattern" && keywordMatches kws o) = true
    · simp [collectRelevant, List.filter_cons, h, ih]
    · simp only [Bool.not_eq_true] at h
      simp [collectRelevant, List.filter_cons, h, ih]

/-- Claim C9: the candidate list is exactly the catalog entries of type
`"attack-pattern"` some keyword of which matches (case-insensitively, in
name or description), in catalog order, capped at 25; and a threat with no
keywords yields an empty technique list independently of the catalog, the
identifier map and the LLM selection (neither is consulted). -/
theorem claim_c9_candidate_matching (objs objs₂ : List StixObject) (kws : List String)
    (attackMap attackMap₂ : List (String × String)) (th : MitreThreat)
    (sel sel₂ : List String) :
    relevant_techniques_for objs kws
      = ((objs.filter (fun o => o.type == "attack-pattern" && keywordMatches kws o)).map
          toTechnique).take 25
    ∧ (relevant_techniques_for objs kws).length ≤ 25
    ∧ (th.keywords.getD [] = [] →
        process_threat_mitre objs attackMap th sel = ⟨th, []⟩
        ∧ process_threat_mitre objs attackMap th sel
            = process_threat_mitre objs₂ attackMap₂ th sel₂) := by
  refine ⟨?_, ?_, ?_⟩
  · rw [relevant_techniques_for, collectRelevant_eq_filter]
    rfl
  · simp [relevant_techniques_for, MAX_TECHNIQUES, List.length_take]
  · intro h
    constructor <;> simp [process_threat_mitre, h]

/-- Witness for C9: a keywordless threat short-circuits on two different
catalogs, maps and selections. -/
theorem claim_c9_candidate_matching_witness :
    process_threat_mitre [⟨"attack-pattern", "Phishing", some "mail", "ap--1"⟩] []
        ⟨some []⟩ ["ap--1"]
      = ⟨⟨some []⟩, []⟩
    ∧ process_threat_mitre [⟨"attack-pattern", "Phishing", some "mail", "ap--1"⟩] []
        ⟨some []⟩ ["ap--1"]
      = process_threat_mitre [] [("ap--1", "T1566")] ⟨some []⟩ [] :=
  ⟨((claim_c9_candidate_matching [⟨"attack-pattern", "Phishing", some "mail", "ap--1"⟩]
      [] [] [] [("ap--1", "T1566")] ⟨some []⟩ ["ap--1"] []).2.2 rfl).1,
   ((claim_c9_candidate_matching [⟨"attack-pattern", "Phishing", some "mail", "ap--1"⟩]
      [] [] [] [("ap--1", "T1566")] ⟨some []⟩ ["ap--1"] []).2.2 rfl).2⟩

/-- Claim C10: when the pulse search yields no usable response after the
retry helper (it hands back `None`), `fetch_otx_data` returns `None`, not
a formatted or sentinel string — and the caller's `.replace` on that
result raises `AttributeError`. -/
theorem claim_c10_otx_none (outs : ℕ → PyResult (Option OtxResp))
    (industry : Option String) (modified_since : String) (max_results : ℕ)
    (adversary malware_family tlp : Option String) :
    (retry_with_backoff (fun i => .ok (search_pulses_inner (outs i))) 3 1).2 = .ok none →
      fetch_otx_data outs industry modified_since max_results adversary malware_family tlp
        = none
      ∧ otx_caller_step
          (fetch_otx_data outs industry modified_since max_results adversary malware_family tlp)
        = .raised (.otherExn "AttributeError: NoneType object has no attribute replace") := by
  intro h
  have hmain : fetch_otx_data outs industry modified_since max_results adversary
      malware_family tlp = none := by
    simp [fetch_otx_data, h]
  exact ⟨hmain, by rw [hmain]; rfl⟩

/-- Witness for C10: persistent timeouts make the retry helper hand back
`None`, and `fetch_otx_data` propagates it. -/
theorem claim_c10_otx_none_witness :
    fetch_otx_data (fun _ => .raised .timeout) (some "Financial")
        "2016-01-01T00:00:00" 10 none none none = none :=
  ((claim_c10_otx_none (fun _ => .raised .timeout) (some "Financial")
      "2016-01-01T00:00:00" 10 none none none) rfl).1

theorem empty_append_str (s : String) : "" ++ s = s := by
  cases s
  rfl

theorem join_singleton (s : String) : String.join [s] = s := by
  simp [String.join, empty_append_str]

/-- The float value `sum / 5` scaled to hundredths and rounded is exactly
`20 * sum`: the mean of five integers is an exact multiple of 1/100. -/
theorem floor_mean_hundredths (s : ℤ) : ⌊((s : ℚ) / 5) * 100 + 1 / 2⌋ = 20 * s := by
  rw [show ((s : ℚ) / 5) * 100 + 1 / 2 = ((20 * s : ℤ) : ℚ) + 1 / 2 by push_cast; ring,
    Int.floor_int_add]
  norm_num [Int.floor_eq_zero_iff]

/-- For sub-score sums in the claim's range, the Python `:.2f` rendering
of `sum / 5` is the exact two-decimal rendering of the mean. -/
theorem pyFormatF2_div5 (s : ℤ) (h0 : 0 ≤ s) (h50 : s ≤ 50) :
    pyFormatF2 ((s : ℚ) / 5) = meanTwoDecimals s := by
  simp only [pyFormatF2, floor_mean_hundredths]
  interval_cases s <;> rfl

/-- Claim C2: for dictionary entries with integer sub-scores each in
[0, 10], the markdown row renders the risk score as
`(d + r + e + a + disc) / 5` with exactly two decimal digits
(`meanTwoDecimals`); all-zero sub-scores render "0.00" and all-ten
sub-scores render "10.00". -/
theorem claim_c2_dread_two_decimals (t : DreadThreat)
    (hd0 : 0 ≤ t.damage_potential) (hd1 : t.damage_potential ≤ 10)
    (hr0 : 0 ≤ t.reproducibility) (hr1 : t.reproducibility ≤ 10)
    (he0 : 0 ≤ t.exploitability) (he1 : t.exploitability ≤ 10)
    (ha0 : 0 ≤ t.affected_users) (ha1 : t.affected_users ≤ 10)
    (hv0 : 0 ≤ t.discoverability) (hv1 : t.discoverability ≤ 10) :
    dread_json_to_markdown ⟨some [t]⟩
      = dreadHeader
        ++ ("| " ++ t.threat_type.getD "N/A" ++ " | " ++ t.scenario_text.getD "N/A" ++ " | "
          ++ toString t.damage_potential ++ " | " ++ toString t.reproducibility ++ " | "
          ++ toString t.exploitability ++ " | " ++ toString t.affected_users ++ " | "
          ++ toString t.discoverability ++ " | "
          ++ meanTwoDecimals (t.damage_potential + t.reproducibility + t.exploitability
              + t.affected_users + t.discoverability)
          ++ " |\n")
    ∧ meanTwoDecimals 0 = "0.00" ∧ meanTwoDecimals 50 = "10.00" := by
  refine ⟨?_, rfl, rfl⟩
  have hrow : dread_json_to_markdown ⟨some [t]⟩ = dreadHeader ++ dreadRow t := by
    simp [dread_json_to_markdown, join_singleton]
  have hs : pyFormatF2 (((t.damage_potential + t.reproducibility + t.exploitability
      + t.affected_users + t.discoverability : ℤ) : ℚ) / 5)
      = meanTwoDecimals (t.damage_potential + t.reproducibility + t.exploitability
          + t.affected_users + t.discoverability) :=
    pyFormatF2_div5 _ (by omega) (by omega)
  rw [hrow]
  simp only [dreadRow, hs]

/-- Witness for C2: the spec's 8/6/5/9/7 sub-score set renders "7.00". -/
theorem claim_c2_dread_two_decimals_witness :
    dread_json_to_markdown
        ⟨some [⟨some "Spoofing", some "Fake OAuth2 provider", 8, 6, 5, 9, 7⟩]⟩
      = dreadHeader ++ "| Spoofing | Fake OAuth2 provider | 8 | 6 | 5 | 9 | 7 | 7.00 |\n" := by
  have h := (claim_c2_dread_two_decimals
    ⟨some "Spoofing", some "Fake OAuth2 provider", 8, 6, 5, 9, 7⟩
    (by decide) (by decide) (by decide) (by decide) (by decide)
    (by decide) (by decide) (by decide) (by decide) (by decide)).1
  refine h.trans ?_
  have : ("| " ++ (Option.getD (some "Spoofing") "N/A") ++ " | "
      ++ (Option.getD (some "Fake OAuth2 provider") "N/A") ++ " | "
      ++ toString (8 : ℤ) ++ " | " ++ toString (6 : ℤ) ++ " | "
      ++ toString (5 : ℤ) ++ " | " ++ toString (9 : ℤ) ++ " | "
      ++ toString (7 : ℤ) ++ " | " ++ meanTwoDecimals (8 + 6 + 5 + 9 + 7) ++ " |\n")
      = "| Spoofing | Fake OAuth2 provider | 8 | 6 | 5 | 9 | 7 | 7.00 |\n" := by decide
  rw [this]

set_option maxRecDepth 8000 in
/-- Claim C4 (failing-input evaluation): with platform-identifier
resolution timing out on every attempt, `fetch_cpe_name` hands back `None`
(its failures are logged by `handle_exception`, never raised as the
docstring claims, so `search_nvd`'s `except NVDAPIError` cannot fire), and
`search_nvd` proceeds to query CVEs with the unresolved identifier: if
that query returns data, the result is an ordinary vulnerability listing,
not a string beginning with "Error: ". -/
theorem claim_c4_code_eval :
    search_nvd (fun _ => .raised .timeout)
        (fun _ => .ok [⟨"CVE-2024-0001", ["A sample flaw"], "2024-01-02T00:00:00", 5⟩])
        "MySQL" "" "8.0" 10
      = .ok "MySQL NVD 1\nCVE ID: CVE-2024-0001\nTechnology: MySQL\nCategory: \nVersion: 8.0\nCVSS Score: 5\nPublished Date: 2024-01-02\nDescription: A sample flaw|\n\nTotal vulnerabilities found: 1"
    ∧ isPrefixCharsB "Error: ".toList "MySQL NVD 1\nCVE ID: CVE-2024-0001\nTechnology: MySQL\nCategory: \nVersion: 8.0\nCVSS Score: 5\nPublished Date: 2024-01-02\nDescription: A sample flaw|\n\nTotal vulnerabilities found: 1".toList = false
    ∧ ("MySQL NVD 1\nCVE ID: CVE-2024-0001\nTechnology: MySQL\nCategory: \nVersion: 8.0\nCVSS Score: 5\nPublished Date: 2024-01-02\nDescription: A sample flaw|\n\nTotal vulnerabilities found: 1" : String)
      ≠ "No vulnerabilities found" := by
  refine ⟨?_, by decide, by decide⟩
  decide
